import Mathlib

/-!
Shallow embedding of the SQLite3Handler repository (two Python source files:
`src/SQLite3Handler/SQLite3Handler.py`, the package module, and
`src/SQLite3Handler.py`, the flat module).  The package module defines
`SQLite3Handler` (fixed-location sink) and `TimedRotatingSQLite3Handler`
(rotating sink); the flat module defines an earlier `SQLite3Handler` whose
column table differs in one extractor.

Modelling conventions:
* Python machine values: `record.created` is an epoch timestamp; Python's
  `time.localtime` truncates the float to whole seconds, so we carry it as a
  `Nat` (post-1970 timestamps).  `record.msecs` is carried as a rational.
* `time.localtime` is modelled by `pyLocaltime`, the standard proleptic
  Gregorian conversion from days since 1970-01-01 (the host timezone is
  modelled as a fixed UTC offset of zero; no claim depends on the offset).
* `datetime.strftime` is modelled by `pyStrftime`: the `%Y %m %d %H %M`
  directives the handler's format table emits are expanded (`%Y` unpadded as
  on glibc — years reachable from a `Nat` epoch are ≥ 1970, hence 4 digits;
  the others zero-padded to width 2), `%%` yields `%`, and any other
  directive is copied through verbatim (glibc behaviour).
* Fallible Python code is modelled with `Except`: a column extractor that
  raises returns `.error`; the actual fourteen extractors of both modules are
  total on well-typed records and always return `.ok`.
* sqlite3 I/O is external: a `StorageEnv` records which storage operations
  (connect / CREATE TABLE execute / INSERT execute) succeed, and the emit and
  constructor models return the observable outcome (exception escaping,
  records passed to `handleError`, connection closed, resulting table rows).
-/

/-- Python `datetime.datetime` value as constructed by the handler (calendar
fields plus microsecond).  The Python constructor validates field ranges; for
the arguments the handler passes (output of `time.localtime`, and
`int(msecs * 1000)` with `msecs` in `[0, 1000)` as the logging framework
guarantees) the validation cannot fire, so the model is a plain structure. -/
structure PyDatetime where
  year : Nat
  month : Nat
  day : Nat
  hour : Nat
  minute : Nat
  second : Nat
  microsecond : Int
deriving DecidableEq, Repr

/-- Python `time.struct_time` is a 9-tuple; the handler slices `[:6]`. -/
structure StructTime where
  tm_year : Nat
  tm_mon : Nat
  tm_mday : Nat
  tm_hour : Nat
  tm_min : Nat
  tm_sec : Nat
  tm_wday : Nat
  tm_yday : Nat
  tm_isdst : Int
deriving DecidableEq, Repr

/-- Gregorian leap-year test. -/
def isLeap (y : Nat) : Bool :=
  (y % 4 = 0 && y % 100 ≠ 0) || y % 400 = 0

/-- Days in the months preceding month `m` (1-based) of a year. -/
def monthDaysBefore (leap : Bool) (m : Nat) : Nat :=
  match m with
  | 1 => 0
  | 2 => 31
  | 3 => 59 + (if leap then 1 else 0)
  | 4 => 90 + (if leap then 1 else 0)
  | 5 => 120 + (if leap then 1 else 0)
  | 6 => 151 + (if leap then 1 else 0)
  | 7 => 181 + (if leap then 1 else 0)
  | 8 => 212 + (if leap then 1 else 0)
  | 9 => 243 + (if leap then 1 else 0)
  | 10 => 273 + (if leap then 1 else 0)
  | 11 => 304 + (if leap then 1 else 0)
  | _ => 334 + (if leap then 1 else 0)

/-- Civil date from a count of days since 1970-01-01 (standard era-based
Gregorian algorithm, restricted to nonnegative day counts). -/
def daysToCivil (days : Nat) : Nat × Nat × Nat :=
  let z := days + 719468
  let era := z / 146097
  let doe := z % 146097
  let yoe := (doe - doe / 1460 + doe / 36524 - doe / 146097) / 365
  let y := yoe + era * 400
  let doy := doe - (365 * yoe + yoe / 4 - yoe / 100)
  let mp := (5 * doy + 2) / 153
  let d := doy - (153 * mp + 2) / 5 + 1
  let m := if mp < 10 then mp + 3 else mp - 9
  (if m ≤ 2 then y + 1 else y, m, d)

/-- Model of `time.localtime` applied to an epoch-seconds timestamp (the
timezone is modelled as UTC; `tm_wday` is Monday-based as in Python). -/
def pyLocaltime (t : Nat) : StructTime :=
  let days := t / 86400
  let secs := t % 86400
  let c := daysToCivil days
  { tm_year := c.1
    tm_mon := c.2.1
    tm_mday := c.2.2
    tm_hour := secs / 3600
    tm_min := secs % 3600 / 60
    tm_sec := secs % 60
    tm_wday := (days + 3) % 7
    tm_yday := monthDaysBefore (isLeap c.1) c.2.1 + c.2.2
    tm_isdst := 0 }

/-- Python `int()` on a rational: truncation toward zero. -/
def pyInt (q : ℚ) : Int :=
  if 0 ≤ q then q.floor else -((-q).floor)

/-- The `dt.datetime(*time.localtime(created)[:6])` value computed at the top
of `TimedRotatingSQLite3Handler.emit` (microsecond defaults to 0). -/
def localDate (created : Nat) : PyDatetime :=
  let st := pyLocaltime created
  ⟨st.tm_year, st.tm_mon, st.tm_mday, st.tm_hour, st.tm_min, st.tm_sec, 0⟩

/-- Decimal rendering zero-padded to width 2 (glibc `%m %d %H %M`). -/
def pad2 (n : Nat) : String :=
  if n < 10 then "0" ++ Nat.repr n else Nat.repr n

/-- Expansion of one `strftime` directive character. -/
def fmtDir (d : PyDatetime) (c : Char) : List Char :=
  if c = 'Y' then (Nat.repr d.year).data
  else if c = 'm' then (pad2 d.month).data
  else if c = 'd' then (pad2 d.day).data
  else if c = 'H' then (pad2 d.hour).data
  else if c = 'M' then (pad2 d.minute).data
  else if c = '%' then ['%']
  else ['%', c]

/-- `strftime` over a character list: a `%` consumes the next character as a
directive; all other characters are copied. -/
def fmtRun (d : PyDatetime) : List Char → List Char
  | [] => []
  | c :: rest =>
    if c = '%' then
      match rest with
      | [] => ['%']
      | c2 :: rest2 => fmtDir d c2 ++ fmtRun d rest2
    else c :: fmtRun d rest

/-- Model of Python `datetime.strftime`. -/
def pyStrftime (fmt : String) (d : PyDatetime) : String :=
  ⟨fmtRun d fmt.data⟩

/-- Model of Python `str.endswith`: a plain suffix test, used as a building
block below. -/
def strEndsWith (s t : String) : Bool :=
  decide (t.data.length ≤ s.data.length) &&
    decide (s.data.drop (s.data.length - t.data.length) = t.data)

/-- The `(dbname, dbext)` pair computed by `TimedRotatingSQLite3Handler.__init__`
from the regex alternation `(\.db$|\.sqlite$|\.sqlite3$)`:
`dbname = re.sub(dbext_re, '', database)` strips the matched extension,
`dbext` is the matched extension or the `.sqlite3` default.  Python's `$`
matches at the end of the string OR just before a single newline that ends
the string, so each alternative `\.ext$` matches exactly when the template
ends with `ext` or with `ext` followed by one final newline; in the latter
case `re.sub` removes only the `ext` span, leaving the newline on the stem.
The six cases are pairwise exclusive (the characters at the tail conflict),
so the order of the tests below does not matter and may differ from the
alternation's order. -/
def splitDbExt (database : String) : String × String :=
  if strEndsWith database ".db" then
    (⟨database.data.take (database.data.length - 3)⟩, ".db")
  else if strEndsWith database ".sqlite" then
    (⟨database.data.take (database.data.length - 7)⟩, ".sqlite")
  else if strEndsWith database ".sqlite3" then
    (⟨database.data.take (database.data.length - 8)⟩, ".sqlite3")
  else if strEndsWith database ".db\n" then
    (⟨database.data.take (database.data.length - 4) ++ ['\n']⟩, ".db")
  else if strEndsWith database ".sqlite\n" then
    (⟨database.data.take (database.data.length - 8) ++ ['\n']⟩, ".sqlite")
  else if strEndsWith database ".sqlite3\n" then
    (⟨database.data.take (database.data.length - 9) ++ ['\n']⟩, ".sqlite3")
  else (database, ".sqlite3")

example : splitDbExt "app.db\n" = ("app\n", ".db") := by decide
example : splitDbExt "app.db\n\n" = ("app.db\n\n", ".sqlite3") := by decide

/-- Whether the base template carries one of the three recognized extensions
at its very end (the specification's trailing-extension reading; a template
whose extension sits before a trailing newline is excluded here). -/
def hasRecognizedExt (database : String) : Bool :=
  strEndsWith database ".db" || strEndsWith database ".sqlite" ||
    strEndsWith database ".sqlite3"

/-- The `timeformat` selected by the `if/elif` chain of
`TimedRotatingSQLite3Handler.__init__`. -/
def timeformatOf (interval : String) : String :=
  if interval = "year" then "_%Y"
  else if interval = "month" then "_%Y-%m"
  else if interval = "day" then "_%Y-%m-%d"
  else if interval = "hour" then "_%Y-%m-%d_%H"
  else if interval = "minute" then "_%Y-%m-%d_%H:%M"
  else ""

/-- `self.dbformat = dbname + timeformat + dbext` from the rotating
constructor. -/
def dbformat (database interval : String) : String :=
  (splitDbExt database).1 ++ timeformatOf interval ++ (splitDbExt database).2

/-- The concrete database file name the rotating `emit` connects to:
`date.strftime(self.dbformat)` with `date = dt.datetime(*time.localtime(record.created)[:6])`. -/
def resolvedName (database interval : String) (created : Nat) : String :=
  pyStrftime (dbformat database interval) (localDate created)

example : resolvedName "app.db" "day" 0 = "app_1970-01-01.db" := by decide
example : resolvedName "app.db" "none" 0 = "app.db" := by decide
example : resolvedName "a" "minute" 86400 = "a_1970-01-02_00:00.sqlite3" := by decide
example : resolvedName "app%Y.db" "day" 0 = "app1970_1970-01-01.db" := by decide
example : resolvedName "app.db\n" "day" 0 = "app\n_1970-01-01.db" := by decide

/-- A value bound into the parameterized INSERT: the extractors of both
modules produce a Python `int`, `str`, `datetime.datetime`, or `None`. -/
inductive Value where
  | vint : Int → Value
  | vstr : String → Value
  | vdatetime : PyDatetime → Value
  | vnull : Value
deriving DecidableEq, Repr

/-- The captured-failure triple `record.exc_info = (type, value, traceback)`.
The pieces the extractors consume: `excTypeName` models `exc_info[0].__name__`
and `formattedLines` models the list of strings that the external
`traceback.format_exception(*exc_info)` returns (stack-trace formatting is an
excluded external collaborator, so its output is carried on the triple). -/
structure ExcInfoTriple where
  excTypeName : String
  excValueRepr : String
  formattedLines : List String
deriving DecidableEq, Repr

/-- Model of `traceback.format_exception(*exc_info)`. -/
def traceback_format_exception (t : ExcInfoTriple) : List String :=
  t.formattedLines

/-- A `logging.LogRecord` snapshot, with exactly the attributes the two
column tables read.  `message` is the already-rendered result of
`record.getMessage()` (message formatting is the framework's job). -/
structure LogRecord where
  created : Nat
  msecs : ℚ
  name : String
  levelname : String
  pathname : String
  lineno : Int
  module : String
  funcName : String
  process : Int
  processName : String
  thread : Int
  threadName : String
  message : String
  exc_info : Option ExcInfoTriple
deriving DecidableEq, Repr

/-- Model of `os.path.basename`: the part after the last `/` (the running
segment is reset whenever a separator is passed). -/
def osPathBasename (p : String) : String :=
  ⟨p.data.foldl (fun acc c => if c = '/' then [] else acc ++ [c]) []⟩

/-- `record.filename`: `logging.LogRecord.__init__` sets
`self.filename = os.path.basename(pathname)`. -/
def LogRecord.filename (r : LogRecord) : String :=
  osPathBasename r.pathname

/-- One column of the table: a name, a value extractor, and a column type
(class `LogCol` of both modules, default type `TEXT`).  The extractor is
fallible (`.error` models the Python function raising). -/
structure LogCol where
  name : String
  get_value : LogRecord → Except String Value
  type : String := "TEXT"

/-- The value an extractor yields when it does not raise (`.vnull` is a
don't-care fallback for the raising case). -/
def okValue (c : LogCol) (r : LogRecord) : Value :=
  match c.get_value r with
  | .ok v => v
  | .error _ => Value.vnull

/-! Columns of `SQLite3Handler.TABLE_COLUMNS` in the package module
`src/SQLite3Handler/SQLite3Handler.py`, in source order. -/

namespace Pkg

def TABLE_NAME : String := "logs"

/-- `LogCol('Time', lambda x: dt.datetime(*time.localtime(x.created)[:6], int(x.msecs * 1000)))` -/
def col_Time : LogCol :=
  { name := "Time"
    get_value := fun x =>
      let st := pyLocaltime x.created
      .ok (.vdatetime ⟨st.tm_year, st.tm_mon, st.tm_mday, st.tm_hour,
        st.tm_min, st.tm_sec, pyInt (x.msecs * 1000)⟩) }

def col_LoggerName : LogCol :=
  { name := "LoggerName", get_value := fun x => .ok (.vstr x.name) }

def col_Level : LogCol :=
  { name := "Level", get_value := fun x => .ok (.vstr x.levelname) }

/-- `LogCol('FileName', lambda x: x.pathname)` — the package module stores the
full source path. -/
def col_FileName : LogCol :=
  { name := "FileName", get_value := fun x => .ok (.vstr x.pathname) }

def col_LineNo : LogCol :=
  { name := "LineNo", get_value := fun x => .ok (.vint x.lineno)
    type := "INTEGER" }

def col_ModuleName : LogCol :=
  { name := "ModuleName", get_value := fun x => .ok (.vstr x.module) }

def col_FuncName : LogCol :=
  { name := "FuncName", get_value := fun x => .ok (.vstr x.funcName) }

def col_ProcessID : LogCol :=
  { name := "ProcessID", get_value := fun x => .ok (.vint x.process)
    type := "INTEGER" }

def col_ProcessName : LogCol :=
  { name := "ProcessName", get_value := fun x => .ok (.vstr x.processName) }

def col_ThreadID : LogCol :=
  { name := "ThreadID", get_value := fun x => .ok (.vint x.thread)
    type := "INTEGER" }

def col_ThreadName : LogCol :=
  { name := "ThreadName", get_value := fun x => .ok (.vstr x.threadName) }

def col_LogMessage : LogCol :=
  { name := "LogMessage", get_value := fun x => .ok (.vstr x.message) }

/-- `LogCol('ExceptionType', lambda x: x.exc_info[0].__name__ if x.exc_info else None)` -/
def col_ExceptionType : LogCol :=
  { name := "ExceptionType"
    get_value := fun x =>
      match x.exc_info with
      | some t => .ok (.vstr t.excTypeName)
      | none => .ok .vnull }

/-- `LogCol('TraceBack', lambda x: ''.join(traceback.format_exception(*x.exc_info)) if x.exc_info else None)` -/
def col_TraceBack : LogCol :=
  { name := "TraceBack"
    get_value := fun x =>
      match x.exc_info with
      | some t => .ok (.vstr (String.join (traceback_format_exception t)))
      | none => .ok .vnull }

def TABLE_COLUMNS : List LogCol :=
  [col_Time, col_LoggerName, col_Level, col_FileName, col_LineNo,
   col_ModuleName, col_FuncName, col_ProcessID, col_ProcessName,
   col_ThreadID, col_ThreadName, col_LogMessage, col_ExceptionType,
   col_TraceBack]

end Pkg

/-! Columns of `SQLite3Handler.TABLE_COLUMNS` in the flat module
`src/SQLite3Handler.py`, in source order.  The fourteen extractors are
textually identical to the package module's except `FileName`, which reads
`x.filename` (the basename) instead of `x.pathname`. -/

namespace Root

def col_Time : LogCol :=
  { name := "Time"
    get_value := fun x =>
      let st := pyLocaltime x.created
      .ok (.vdatetime ⟨st.tm_year, st.tm_mon, st.tm_mday, st.tm_hour,
        st.tm_min, st.tm_sec, pyInt (x.msecs * 1000)⟩) }

def col_LoggerName : LogCol :=
  { name := "LoggerName", get_value := fun x => .ok (.vstr x.name) }

def col_Level : LogCol :=
  { name := "Level", get_value := fun x => .ok (.vstr x.levelname) }

/-- `LogCol('FileName', lambda x: x.filename)` — the flat module stores the
basename of the source path. -/
def col_FileName : LogCol :=
  { name := "FileName", get_value := fun x => .ok (.vstr x.filename) }

def col_LineNo : LogCol :=
  { name := "LineNo", get_value := fun x => .ok (.vint x.lineno)
    type := "INTEGER" }

def col_ModuleName : LogCol :=
  { name := "ModuleName", get_value := fun x => .ok (.vstr x.module) }

def col_FuncName : LogCol :=
  { name := "FuncName", get_value := fun x => .ok (.vstr x.funcName) }

def col_ProcessID : LogCol :=
  { name := "ProcessID", get_value := fun x => .ok (.vint x.process)
    type := "INTEGER" }

def col_ProcessName : LogCol :=
  { name := "ProcessName", get_value := fun x => .ok (.vstr x.processName) }

def col_ThreadID : LogCol :=
  { name := "ThreadID", get_value := fun x => .ok (.vint x.thread)
    type := "INTEGER" }

def col_ThreadName : LogCol :=
  { name := "ThreadName", get_value := fun x => .ok (.vstr x.threadName) }

def col_LogMessage : LogCol :=
  { name := "LogMessage", get_value := fun x => .ok (.vstr x.message) }

def col_ExceptionType : LogCol :=
  { name := "ExceptionType"
    get_value := fun x =>
      match x.exc_info with
      | some t => .ok (.vstr t.excTypeName)
      | none => .ok .vnull }

def col_TraceBack : LogCol :=
  { name := "TraceBack"
    get_value := fun x =>
      match x.exc_info with
      | some t => .ok (.vstr (String.join (traceback_format_exception t)))
      | none => .ok .vnull }

def TABLE_COLUMNS : List LogCol :=
  [col_Time, col_LoggerName, col_Level, col_FileName, col_LineNo,
   col_ModuleName, col_FuncName, col_ProcessID, col_ProcessName,
   col_ThreadID, col_ThreadName, col_LogMessage, col_ExceptionType,
   col_TraceBack]

end Root

/-- Whether an `Except` is an error. -/
def isErr {ε α : Type} : Except ε α → Bool
  | .error _ => true
  | .ok _ => false

/-- The body of `insert_log` up to the `cursor.execute` call: the `for col in
self.TABLE_COLUMNS` loop appends `col.name` to `names` and `col.get_value(record)`
to `values`, in table order; a raising extractor aborts the loop (and hence
the whole method) before any SQL statement is executed. -/
def insertData (cols : List LogCol) (r : LogRecord) :
    Except String (List String × List Value) :=
  match cols with
  | [] => .ok ([], [])
  | c :: cs =>
    match c.get_value r with
    | .error e => .error e
    | .ok v =>
      match insertData cs r with
      | .error e => .error e
      | .ok p => .ok (c.name :: p.1, v :: p.2)

/-- Which external sqlite3 operations succeed during one call:
`sqlite3.connect`, the CREATE TABLE execute/commit, the INSERT
execute/commit. -/
structure StorageEnv where
  connectOk : Bool
  createOk : Bool
  execOk : Bool
deriving DecidableEq, Repr

/-- Observable outcome of one `emit` call.  `target` is the database file the
call connects to; `raised` is true when an exception escapes `emit` to the
caller; `hooked` lists the records passed to `self.handleError`, in order;
`closed` is true when `connection.close()` ran; `rows` is the content of the
target table after the call (given its content `rows` before). -/
structure EmitResult where
  target : String
  raised : Bool
  hooked : List LogRecord
  closed : Bool
  rows : List (List Value)
deriving DecidableEq, Repr

/-- `SQLite3Handler.emit`: `sqlite3.connect(self.database)` runs BEFORE the
`try` block, so a connect failure raises out of `emit` without touching
`handleError` and without a `finally` close; inside the `try`, any failure of
`insert_log` (extraction or INSERT) is caught, `handleError(record)` is
called once, and the `finally` closes the connection. -/
def emitFixed (db : String) (cols : List LogCol) (env : StorageEnv)
    (r : LogRecord) (rows : List (List Value)) : EmitResult :=
  if env.connectOk then
    match insertData cols r with
    | .error _ => ⟨db, false, [r], true, rows⟩
    | .ok p =>
      if env.execOk then ⟨db, false, [], true, rows ++ [p.2]⟩
      else ⟨db, false, [r], true, rows⟩
  else ⟨db, true, [], false, rows⟩

/-- `TimedRotatingSQLite3Handler.emit`: the file name is resolved via
`date.strftime(self.dbformat)` and `sqlite3.connect(database)` runs, both
BEFORE the `try` block; inside the `try`, `create_table` then `insert_log`
run, any failure is caught and routed to `handleError(record)` once, and the
`finally` closes the connection. -/
def emitRotating (db interval : String) (cols : List LogCol)
    (env : StorageEnv) (r : LogRecord) (rows : List (List Value)) :
    EmitResult :=
  let target := resolvedName db interval r.created
  if env.connectOk then
    if env.createOk then
      match insertData cols r with
      | .error _ => ⟨target, false, [r], true, rows⟩
      | .ok p =>
        if env.execOk then ⟨target, false, [], true, rows ++ [p.2]⟩
        else ⟨target, false, [r], true, rows⟩
    else ⟨target, false, [r], true, rows⟩
  else ⟨target, true, [], false, rows⟩

/-- The CREATE TABLE IF NOT EXISTS statement built by `create_table`: the
table name and the column definition list
`id INTEGER PRIMARY KEY AUTOINCREMENT` followed by `f'{x.name} {x.type}'`
for each table column, in order. -/
structure CreateStmt where
  table : String
  columnDefs : List (String × String)
deriving DecidableEq, Repr

/-- The statement `create_table` executes for a given column table. -/
def createStmtOf (cols : List LogCol) : CreateStmt :=
  { table := Pkg.TABLE_NAME
    columnDefs :=
      ("id", "INTEGER PRIMARY KEY AUTOINCREMENT") ::
        cols.map (fun c => (c.name, c.type)) }

/-- Observable outcome of `SQLite3Handler.__init__`.  `target` is the storage
path connected to, `executed` is the DDL statement successfully executed (if
any), `hookCalls` counts `handleError` invocations (the constructor has no
`try`, so it is always zero). -/
structure InitResult where
  target : String
  raised : Bool
  hookCalls : Nat
  closed : Bool
  executed : Option CreateStmt
deriving DecidableEq, Repr

/-- `SQLite3Handler.__init__`: `sqlite3.connect(self.database)`, then
`self.create_table(connection)`, then `connection.close()` — with no
`try/except/finally` at all, so a failure raises out of the constructor (and
skips the close). -/
def fixedInit (db : String) (cols : List LogCol) (env : StorageEnv) :
    InitResult :=
  if env.connectOk then
    if env.createOk then ⟨db, false, 0, true, some (createStmtOf cols)⟩
    else ⟨db, true, 0, false, none⟩
  else ⟨db, true, 0, false, none⟩

/-! Claim-side definitions (written from the specification's words, to be
compared with the source-derived definitions above). -/

/-- Rotation suffix as the specification describes it: the event's local
timestamp rendered as `_YYYY` for interval `year`, `_YYYY-MM` for `month`,
`_YYYY-MM-DD` for `day`, `_YYYY-MM-DD_HH` for `hour`, `_YYYY-MM-DD_HH:MM`
for `minute`, and empty for any other interval (`YYYY` is the decimal year,
at least four digits for any representable timestamp; the other fields are
two zero-padded digits). -/
def specRotationSuffix (interval : String) (d : PyDatetime) : String :=
  if interval = "year" then "_" ++ Nat.repr d.year
  else if interval = "month" then
    "_" ++ Nat.repr d.year ++ "-" ++ pad2 d.month
  else if interval = "day" then
    "_" ++ Nat.repr d.year ++ "-" ++ pad2 d.month ++ "-" ++ pad2 d.day
  else if interval = "hour" then
    "_" ++ Nat.repr d.year ++ "-" ++ pad2 d.month ++ "-" ++ pad2 d.day ++
      "_" ++ pad2 d.hour
  else if interval = "minute" then
    "_" ++ Nat.repr d.year ++ "-" ++ pad2 d.month ++ "-" ++ pad2 d.day ++
      "_" ++ pad2 d.hour ++ ":" ++ pad2 d.minute
  else ""

/-- A record without a captured failure, used as a concrete evaluation
point. -/
def sampleRecord : LogRecord :=
  { created := 86400
    msecs := 250
    name := "app"
    levelname := "INFO"
    pathname := "/srv/app/main.py"
    lineno := 42
    module := "main"
    funcName := "run"
    process := 1000
    processName := "MainProcess"
    thread := 7
    threadName := "MainThread"
    message := "hello"
    exc_info := none }

/-- A concrete captured-failure triple. -/
def sampleTriple : ExcInfoTriple :=
  { excTypeName := "ValueError"
    excValueRepr := "bad value"
    formattedLines := ["Traceback (most recent call last):\n",
      "  line one\n", "ValueError: bad value\n"] }

/-- A record carrying a captured failure triple. -/
def sampleRecordExc : LogRecord :=
  { sampleRecord with
    message := "boom"
    exc_info := some sampleTriple }

/-! Helper lemmas about the string and strftime model. -/

lemma strDataInj {a b : String} (h : a.data = b.data) : a = b := by
  cases a
  cases b
  exact congrArg String.mk h

lemma strData_append (a b : String) : (a ++ b).data = a.data ++ b.data := rfl

lemma fmtRun_cons_ne (d : PyDatetime) (c : Char) (rest : List Char)
    (h : c ≠ '%') : fmtRun d (c :: rest) = c :: fmtRun d rest := by
  rw [fmtRun.eq_def]
  simp [h]

lemma fmtRun_append_noPct (d : PyDatetime) (a b : List Char)
    (h : '%' ∉ a) : fmtRun d (a ++ b) = a ++ fmtRun d b := by
  induction a with
  | nil => simp
  | cons c cs ih =>
    have hc : c ≠ '%' := by
      rintro rfl
      exact h (List.mem_cons_self _ _)
    have hcs : '%' ∉ cs := fun hm => h (List.mem_cons_of_mem _ hm)
    rw [List.cons_append, fmtRun_cons_ne _ _ _ hc, ih hcs]
    rfl

lemma fmtRun_noPct (d : PyDatetime) (l : List Char) (h : '%' ∉ l) :
    fmtRun d l = l := by
  have h0 := fmtRun_append_noPct d l [] h
  simpa [fmtRun] using h0

lemma splitDbExt_stem_noPct (db : String) (h : '%' ∉ db.data) :
    '%' ∉ (splitDbExt db).1.data := by
  have hnl : ∀ hm1 : '%' ∈ (['\n'] : List Char), False := fun hm1 =>
    absurd hm1 (by decide)
  unfold splitDbExt
  split_ifs
  · exact fun hm => h (List.take_subset _ _ hm)
  · exact fun hm => h (List.take_subset _ _ hm)
  · exact fun hm => h (List.take_subset _ _ hm)
  · intro hm
    rcases List.mem_append.mp hm with hm1 | hm1
    · exact h (List.take_subset _ _ hm1)
    · exact hnl hm1
  · intro hm
    rcases List.mem_append.mp hm with hm1 | hm1
    · exact h (List.take_subset _ _ hm1)
    · exact hnl hm1
  · intro hm
    rcases List.mem_append.mp hm with hm1 | hm1
    · exact h (List.take_subset _ _ hm1)
    · exact hnl hm1
  · exact h

lemma splitDbExt_ext_cases (db : String) :
    (splitDbExt db).2 = ".db" ∨ (splitDbExt db).2 = ".sqlite" ∨
      (splitDbExt db).2 = ".sqlite3" := by
  unfold splitDbExt
  split_ifs <;> simp

lemma splitDbExt_ext_noPct (db : String) : '%' ∉ (splitDbExt db).2.data := by
  rcases splitDbExt_ext_cases db with he | he | he <;> rw [he] <;> decide

lemma splitDbExt_recombine (db : String) (h : hasRecognizedExt db = true) :
    (splitDbExt db).1 ++ (splitDbExt db).2 = db := by
  unfold splitDbExt
  split_ifs with h1 h2 h3 h4 h5 h6
  · apply strDataInj
    rw [strData_append]
    unfold strEndsWith at h1
    rw [Bool.and_eq_true] at h1
    have hdrop := of_decide_eq_true h1.2
    have e3 : (".db" : String).data.length = 3 := rfl
    rw [e3] at hdrop
    show db.data.take (db.data.length - 3) ++ (".db" : String).data = db.data
    rw [← hdrop]
    exact List.take_append_drop _ _
  · apply strDataInj
    rw [strData_append]
    unfold strEndsWith at h2
    rw [Bool.and_eq_true] at h2
    have hdrop := of_decide_eq_true h2.2
    have e7 : (".sqlite" : String).data.length = 7 := rfl
    rw [e7] at hdrop
    show db.data.take (db.data.length - 7) ++ (".sqlite" : String).data = db.data
    rw [← hdrop]
    exact List.take_append_drop _ _
  · apply strDataInj
    rw [strData_append]
    unfold strEndsWith at h3
    rw [Bool.and_eq_true] at h3
    have hdrop := of_decide_eq_true h3.2
    have e8 : (".sqlite3" : String).data.length = 8 := rfl
    rw [e8] at hdrop
    show db.data.take (db.data.length - 8) ++ (".sqlite3" : String).data = db.data
    rw [← hdrop]
    exact List.take_append_drop _ _
  all_goals
    exfalso
    unfold hasRecognizedExt at h
    rw [Bool.or_eq_true, Bool.or_eq_true] at h
    rcases h with (hh | hh) | hh
    · exact h1 hh
    · exact h2 hh
    · exact h3 hh

/-- Expanding the selected rotation format in front of a percent-free tail
yields the specification's rendered suffix followed by the tail. -/
lemma fmtRun_format_append (d : PyDatetime) (iv : String) (l : List Char)
    (hl : '%' ∉ l) :
    fmtRun d ((timeformatOf iv).data ++ l) =
      (specRotationSuffix iv d).data ++ l := by
  have hrun := fmtRun_noPct d l hl
  unfold timeformatOf specRotationSuffix
  split_ifs <;> simp [fmtRun, fmtDir, strData_append, hrun]

/-- Core decomposition of the resolved rotating file name, for base templates
containing no percent character: the strftime pass leaves the stem and the
extension intact and expands exactly the rotation format between them. -/
lemma resolvedName_decomp (db iv : String) (t : Nat) (h : '%' ∉ db.data) :
    resolvedName db iv t =
      (splitDbExt db).1 ++ specRotationSuffix iv (localDate t) ++
        (splitDbExt db).2 := by
  have hstem := splitDbExt_stem_noPct db h
  have hext := splitDbExt_ext_noPct db
  apply strDataInj
  unfold resolvedName pyStrftime dbformat
  show fmtRun (localDate t)
      (((splitDbExt db).1 ++ timeformatOf iv ++ (splitDbExt db).2).data) = _
  rw [strData_append, strData_append, List.append_assoc,
    fmtRun_append_noPct _ _ _ hstem,
    fmtRun_format_append _ _ _ hext,
    strData_append, strData_append, List.append_assoc]

/-- Claim C2, counterexample: for a base template containing a percent
character the claimed equation fails, because `emit` applies `strftime` to
the whole template: `resolvedName "app%Y.db" "day" 0` is
`app1970_1970-01-01.db`, not stem `app%Y` + suffix `_1970-01-01` + `.db`. -/
theorem claim_C2_cex :
    resolvedName "app%Y.db" "day" 0 ≠
      (splitDbExt "app%Y.db").1 ++ specRotationSuffix "day" (localDate 0) ++
        (splitDbExt "app%Y.db").2 := by decide

/-- Claim C2 (amended with the hypothesis that the base template contains no
percent character): the rotating sink's resolved database file name equals
stem + suffix + extension, where stem and extension come from the
constructor's end-anchored extension regex — one recognized extension
(`.db`, `.sqlite`, `.sqlite3`, case-sensitive) is removed from the end of
the base template or from just before a single trailing newline (Python's
`$` matches there too, the newline staying on the stem) — the suffix renders
the event's local timestamp (whole seconds) as `_YYYY` / `_YYYY-MM` /
`_YYYY-MM-DD` / `_YYYY-MM-DD_HH` / `_YYYY-MM-DD_HH:MM` for intervals
year/month/day/hour/minute and is empty otherwise, and the extension is the
removed one, or `.sqlite3` if none matched. -/
theorem claim_C2_rotating_file_name (database interval : String) (t : Nat)
    (h : '%' ∉ database.data) :
    resolvedName database interval t =
      (splitDbExt database).1 ++
        specRotationSuffix interval (localDate t) ++
        (splitDbExt database).2 :=
  resolvedName_decomp database interval t h

/-- Witness for claim C2 at a concrete input. -/
theorem claim_C2_witness :
    ('%' ∉ ("app.sqlite" : String).data) ∧
      resolvedName "app.sqlite" "month" 0 =
        (splitDbExt "app.sqlite").1 ++
          specRotationSuffix "month" (localDate 0) ++
          (splitDbExt "app.sqlite").2 :=
  ⟨by decide, claim_C2_rotating_file_name "app.sqlite" "month" 0 (by decide)⟩

/-- Claim C7, counterexample: a base template with a recognized extension but
containing a percent character is NOT left unchanged by a non-rotating
interval — the strftime pass expands the directive inside it. -/
theorem claim_C7_cex : resolvedName "a%Y.db" "none" 0 ≠ "a%Y.db" := by decide

/-- Claim C7 (amended with the hypothesis that the base template contains no
percent character): resolving a base template that carries a recognized
extension with any interval outside year/month/day/hour/minute yields the
base template unchanged. -/
theorem claim_C7_identity (database interval : String) (t : Nat)
    (h : '%' ∉ database.data) (hext : hasRecognizedExt database = true)
    (hiv : interval ∉
      (["year", "month", "day", "hour", "minute"] : List String)) :
    resolvedName database interval t = database := by
  have hd := resolvedName_decomp database interval t h
  obtain ⟨n1, n2, n3, n4, n5⟩ :
      interval ≠ "year" ∧ interval ≠ "month" ∧ interval ≠ "day" ∧
        interval ≠ "hour" ∧ interval ≠ "minute" := by
    simpa using hiv
  have hsuf : specRotationSuffix interval (localDate t) = "" := by
    simp [specRotationSuffix, n1, n2, n3, n4, n5]
  rw [hd, hsuf]
  have hmid : (splitDbExt database).1 ++ "" ++ (splitDbExt database).2 =
      (splitDbExt database).1 ++ (splitDbExt database).2 := by
    apply strDataInj
    have h0 : ("" : String).data = [] := rfl
    simp [strData_append, h0]
  rw [hmid, splitDbExt_recombine database hext]

/-- Witness for claim C7 at a concrete input. -/
theorem claim_C7_witness :
    ('%' ∉ ("app.db" : String).data) ∧ hasRecognizedExt "app.db" = true ∧
      ("none" ∉ (["year", "month", "day", "hour", "minute"] : List String)) ∧
      resolvedName "app.db" "none" 0 = "app.db" :=
  ⟨by decide, by decide, by decide,
    claim_C7_identity "app.db" "none" 0 (by decide) (by decide) (by decide)⟩

/-- Claim C9: on each rotating emit the target file name is obtained by
applying the strftime model to the entire precomputed template
`stem + format + extension`, so percent characters in the user-supplied base
template are fed to strftime rather than protected: concretely, the template
`log%m.sqlite` resolves (with interval `year` at epoch 0) to
`log01_1970.sqlite` — the `%m` in the stem was expanded — and not to the
literal-stem reading stem + suffix + extension. -/
theorem claim_C9_strftime_whole_template :
    (∀ (db iv : String) (cols : List LogCol) (env : StorageEnv)
        (r : LogRecord) (rows : List (List Value)),
      (emitRotating db iv cols env r rows).target =
        pyStrftime (dbformat db iv) (localDate r.created)) ∧
    resolvedName "log%m.sqlite" "year" 0 = "log01_1970.sqlite" ∧
    resolvedName "log%m.sqlite" "year" 0 ≠
      (splitDbExt "log%m.sqlite").1 ++
        specRotationSuffix "year" (localDate 0) ++
        (splitDbExt "log%m.sqlite").2 := by
  refine ⟨?_, by decide, by decide⟩
  intro db iv cols env r rows
  rcases env with ⟨c1, c2, c3⟩
  cases c1 <;> cases c2 <;> cases c3 <;>
    cases hins : insertData cols r <;>
    simp [emitRotating, resolvedName, hins]

/-- Claim C1, counterexample: when opening the storage connection fails, both
emit variants raise to the caller and the error-recovery hook is NOT invoked
(the `sqlite3.connect` call sits before the `try` block), contradicting the
claim that such a failure is swallowed with one `handleError` call. -/
theorem claim_C1_cex :
    (emitFixed "app.db" Pkg.TABLE_COLUMNS ⟨false, true, true⟩
      sampleRecord []).raised = true ∧
    (emitFixed "app.db" Pkg.TABLE_COLUMNS ⟨false, true, true⟩
      sampleRecord []).hooked = [] ∧
    (emitRotating "app.db" "day" Pkg.TABLE_COLUMNS ⟨false, true, true⟩
      sampleRecord []).raised = true ∧
    (emitRotating "app.db" "day" Pkg.TABLE_COLUMNS ⟨false, true, true⟩
      sampleRecord []).hooked = [] :=
  ⟨rfl, rfl, rfl, rfl⟩

/-- Claim C1 (amended): once the storage connection is open, neither emit
variant raises: a failure of table provisioning (rotating sink), of value
extraction, or of the INSERT is swallowed, `handleError` receives exactly
that one event, and the connection is closed; but a failure opening the
connection (which the claim also listed) happens before the guarded block
and propagates without invoking the hook (see the counterexample). -/
theorem claim_C1_emit_failure_isolation
    (db interval : String) (cols : List LogCol) (env : StorageEnv)
    (r : LogRecord) (rows : List (List Value))
    (hc : env.connectOk = true) :
    (emitFixed db cols env r rows).raised = false ∧
    (emitRotating db interval cols env r rows).raised = false ∧
    (emitFixed db cols env r rows).closed = true ∧
    (emitRotating db interval cols env r rows).closed = true ∧
    (emitFixed db cols env r rows).hooked =
      (if isErr (insertData cols r) || !env.execOk then [r] else []) ∧
    (emitRotating db interval cols env r rows).hooked =
      (if !env.createOk || isErr (insertData cols r) || !env.execOk
        then [r] else []) := by
  rcases env with ⟨c1, c2, c3⟩
  obtain rfl : c1 = true := hc
  cases c2 <;> cases c3 <;> cases hins : insertData cols r <;>
    simp [emitFixed, emitRotating, hins, isErr]

/-- Witness for claim C1 at a concrete input (all storage operations
succeed). -/
theorem claim_C1_witness :
    ((⟨true, true, true⟩ : StorageEnv).connectOk = true) ∧
    ((emitFixed "app.db" Pkg.TABLE_COLUMNS ⟨true, true, true⟩
        sampleRecord []).raised = false ∧
      (emitRotating "app.db" "day" Pkg.TABLE_COLUMNS ⟨true, true, true⟩
        sampleRecord []).raised = false ∧
      (emitFixed "app.db" Pkg.TABLE_COLUMNS ⟨true, true, true⟩
        sampleRecord []).closed = true ∧
      (emitRotating "app.db" "day" Pkg.TABLE_COLUMNS ⟨true, true, true⟩
        sampleRecord []).closed = true ∧
      (emitFixed "app.db" Pkg.TABLE_COLUMNS ⟨true, true, true⟩
        sampleRecord []).hooked =
        (if isErr (insertData Pkg.TABLE_COLUMNS sampleRecord) ||
            !(⟨true, true, true⟩ : StorageEnv).execOk
          then [sampleRecord] else []) ∧
      (emitRotating "app.db" "day" Pkg.TABLE_COLUMNS ⟨true, true, true⟩
        sampleRecord []).hooked =
        (if !(⟨true, true, true⟩ : StorageEnv).createOk ||
            isErr (insertData Pkg.TABLE_COLUMNS sampleRecord) ||
            !(⟨true, true, true⟩ : StorageEnv).execOk
          then [sampleRecord] else [])) :=
  ⟨rfl, claim_C1_emit_failure_isolation "app.db" "day" Pkg.TABLE_COLUMNS
    ⟨true, true, true⟩ sampleRecord [] rfl⟩

/-- Claim C5: constructing the fixed-location sink opens a connection to the
given storage path, executes CREATE TABLE IF NOT EXISTS for the `logs` table
with the identity column followed by the Schema Registry columns, and closes
the connection; a construction-time provisioning failure propagates out of
the constructor, with zero `handleError` invocations. -/
theorem claim_C5_constructor (db : String) (env : StorageEnv)
    (hc : env.connectOk = true) :
    (env.createOk = true →
      fixedInit db Pkg.TABLE_COLUMNS env =
        ⟨db, false, 0, true, some (createStmtOf Pkg.TABLE_COLUMNS)⟩ ∧
      (createStmtOf Pkg.TABLE_COLUMNS).table = "logs" ∧
      (createStmtOf Pkg.TABLE_COLUMNS).columnDefs =
        ("id", "INTEGER PRIMARY KEY AUTOINCREMENT") ::
          Pkg.TABLE_COLUMNS.map (fun c => (c.name, c.type))) ∧
    (env.createOk = false →
      (fixedInit db Pkg.TABLE_COLUMNS env).raised = true ∧
      (fixedInit db Pkg.TABLE_COLUMNS env).hookCalls = 0) := by
  rcases env with ⟨c1, c2, c3⟩
  obtain rfl : c1 = true := hc
  constructor
  · intro h2
    obtain rfl : c2 = true := h2
    exact ⟨rfl, rfl, rfl⟩
  · intro h2
    obtain rfl : c2 = false := h2
    exact ⟨rfl, rfl⟩

/-- Witness for claim C5 at concrete inputs: one all-success construction and
one construction whose table provisioning fails. -/
theorem claim_C5_witness :
    ((⟨true, true, true⟩ : StorageEnv).connectOk = true ∧
      (⟨true, true, true⟩ : StorageEnv).createOk = true ∧
      fixedInit "app.db" Pkg.TABLE_COLUMNS ⟨true, true, true⟩ =
        ⟨"app.db", false, 0, true, some (createStmtOf Pkg.TABLE_COLUMNS)⟩) ∧
    ((⟨true, false, true⟩ : StorageEnv).connectOk = true ∧
      (⟨true, false, true⟩ : StorageEnv).createOk = false ∧
      (fixedInit "app.db" Pkg.TABLE_COLUMNS ⟨true, false, true⟩).raised =
        true ∧
      (fixedInit "app.db" Pkg.TABLE_COLUMNS ⟨true, false, true⟩).hookCalls =
        0) :=
  ⟨⟨rfl, rfl,
      ((claim_C5_constructor "app.db" ⟨true, true, true⟩ rfl).1 rfl).1⟩,
    ⟨rfl, rfl,
      ((claim_C5_constructor "app.db" ⟨true, false, true⟩ rfl).2 rfl).1,
      ((claim_C5_constructor "app.db" ⟨true, false, true⟩ rfl).2 rfl).2⟩⟩

/-- Claim C3: for every event carrying a captured-failure triple, the
`ExceptionType` extractor yields the failure type's name and the `TraceBack`
extractor yields the concatenation of the formatted failure frames; for
every event without a captured failure, both extractors yield null. -/
theorem claim_C3_exception_columns :
    (∀ (r : LogRecord) (t : ExcInfoTriple), r.exc_info = some t →
      Pkg.col_ExceptionType.get_value r = .ok (.vstr t.excTypeName) ∧
      Pkg.col_TraceBack.get_value r =
        .ok (.vstr (String.join (traceback_format_exception t)))) ∧
    (∀ r : LogRecord, r.exc_info = none →
      Pkg.col_ExceptionType.get_value r = .ok .vnull ∧
      Pkg.col_TraceBack.get_value r = .ok .vnull) := by
  constructor
  · intro r t ht
    constructor <;> simp [Pkg.col_ExceptionType, Pkg.col_TraceBack, ht]
  · intro r ht
    constructor <;> simp [Pkg.col_ExceptionType, Pkg.col_TraceBack, ht]

/-- Witness for claim C3 at concrete records with and without a captured
failure. -/
theorem claim_C3_witness :
    (sampleRecordExc.exc_info = some sampleTriple ∧
      Pkg.col_ExceptionType.get_value sampleRecordExc =
        .ok (.vstr sampleTriple.excTypeName) ∧
      Pkg.col_TraceBack.get_value sampleRecordExc =
        .ok (.vstr (String.join (traceback_format_exception sampleTriple)))) ∧
    (sampleRecord.exc_info = none ∧
      Pkg.col_ExceptionType.get_value sampleRecord = .ok .vnull ∧
      Pkg.col_TraceBack.get_value sampleRecord = .ok .vnull) :=
  ⟨⟨rfl,
      (claim_C3_exception_columns.1 sampleRecordExc sampleTriple rfl).1,
      (claim_C3_exception_columns.1 sampleRecordExc sampleTriple rfl).2⟩,
    ⟨rfl,
      (claim_C3_exception_columns.2 sampleRecord rfl).1,
      (claim_C3_exception_columns.2 sampleRecord rfl).2⟩⟩

/-- When no column extractor raises, the `insert_log` loop produces the
column names and the extracted values, both in table order. -/
lemma insertData_total (cols : List LogCol) (r : LogRecord)
    (h : ∀ c ∈ cols, isErr (c.get_value r) = false) :
    insertData cols r =
      .ok (cols.map (fun c => c.name), cols.map (fun c => okValue c r)) := by
  induction cols with
  | nil => rfl
  | cons c cs ih =>
    have hc := h c (List.mem_cons_self _ _)
    have hcs : ∀ x ∈ cs, isErr (x.get_value r) = false := fun x hx =>
      h x (List.mem_cons_of_mem _ hx)
    cases hg : c.get_value r with
    | error e =>
      rw [hg] at hc
      simp [isErr] at hc
    | ok v =>
      simp [insertData, hg, ih hcs, okValue]

/-- None of the fourteen extractors of the package module's column table can
fail on a well-typed record. -/
lemma pkg_cols_total (r : LogRecord) :
    ∀ c ∈ Pkg.TABLE_COLUMNS, isErr (c.get_value r) = false := by
  intro c hc
  simp only [Pkg.TABLE_COLUMNS, List.mem_cons, List.not_mem_nil,
    or_false] at hc
  rcases hc with rfl | rfl | rfl | rfl | rfl | rfl | rfl | rfl | rfl | rfl |
    rfl | rfl | rfl | rfl <;>
    first
      | rfl
      | (cases hei : r.exc_info <;>
          simp [Pkg.col_ExceptionType, Pkg.col_TraceBack, isErr, hei])

/-- Claim C4: for every event, the row bound into the parameterized INSERT
has exactly one value per Schema Registry column (14 values), produced by
applying each column's extractor in table order; the INSERT column-name list
is exactly the registry's name list, and the CREATE TABLE column list is the
identity column followed by that same name list in the same order. -/
theorem claim_C4_row_matches_schema (r : LogRecord) :
    insertData Pkg.TABLE_COLUMNS r =
      .ok (Pkg.TABLE_COLUMNS.map (fun c => c.name),
        Pkg.TABLE_COLUMNS.map (fun c => okValue c r)) ∧
    (Pkg.TABLE_COLUMNS.map (fun c => okValue c r)).length = 14 ∧
    Pkg.TABLE_COLUMNS.length = 14 ∧
    (createStmtOf Pkg.TABLE_COLUMNS).columnDefs.map Prod.fst =
      "id" :: Pkg.TABLE_COLUMNS.map (fun c => c.name) := by
  refine ⟨insertData_total _ _ (pkg_cols_total r), ?_, rfl, ?_⟩
  · simp [Pkg.TABLE_COLUMNS]
  · simp [createStmtOf]

/-- Claim C6: for every event, the extracted `Time` value is the datetime
built from the first six local-time fields (year, month, day, hour, minute,
second) of the event's creation timestamp, with microsecond equal to the
integer truncation of the event's millisecond field multiplied by 1000. -/
theorem claim_C6_time_column (r : LogRecord) :
    Pkg.col_Time.get_value r =
      .ok (.vdatetime
        { year := (pyLocaltime r.created).tm_year
          month := (pyLocaltime r.created).tm_mon
          day := (pyLocaltime r.created).tm_mday
          hour := (pyLocaltime r.created).tm_hour
          minute := (pyLocaltime r.created).tm_min
          second := (pyLocaltime r.created).tm_sec
          microsecond := pyInt (r.msecs * 1000) }) := rfl

/-- Claim C8, counterexample: the two modules do NOT extract identical
14-tuples — at a record whose source path has a directory part, the package
module's `FileName` value (the full path) differs from the flat module's
(the basename). -/
theorem claim_C8_cex :
    Pkg.TABLE_COLUMNS.map (fun c => okValue c sampleRecord) ≠
      Root.TABLE_COLUMNS.map (fun c => okValue c sampleRecord) := by
  intro h
  have h3 := congrArg (fun l => l.get? 3) h
  have e1 : (Pkg.TABLE_COLUMNS.map (fun c => okValue c sampleRecord)).get? 3 =
      some (.vstr "/srv/app/main.py") := rfl
  have e2 : (Root.TABLE_COLUMNS.map (fun c => okValue c sampleRecord)).get? 3 =
      some (.vstr "main.py") := rfl
  simp only [e1, e2] at h3
  exact absurd h3 (by decide)

/-- Claim C8 (amended): the two modules' column tables agree on every column
except `FileName` (index 3): the flat module's row is the package module's
row with the `FileName` value replaced by the basename of the source path,
the package module storing `pathname` and the flat module `filename`. -/
theorem claim_C8_row_equivalence (r : LogRecord) :
    Root.TABLE_COLUMNS.map (fun c => okValue c r) =
      (Pkg.TABLE_COLUMNS.map (fun c => okValue c r)).set 3
        (.vstr (osPathBasename r.pathname)) ∧
    (Pkg.TABLE_COLUMNS.map (fun c => okValue c r)).get? 3 =
      some (.vstr r.pathname) ∧
    (Root.TABLE_COLUMNS.map (fun c => okValue c r)).get? 3 =
      some (.vstr r.filename) :=
  ⟨rfl, rfl, rfl⟩

/-- If some column's extractor fails on a record, the `insert_log` loop
aborts with that failure. -/
lemma insertData_err_of_col (cols : List LogCol) (r : LogRecord)
    (h : ∃ c ∈ cols, isErr (c.get_value r) = true) :
    ∃ e, insertData cols r = .error e := by
  induction cols with
  | nil =>
    rcases h with ⟨c, hc, _⟩
    simp at hc
  | cons c cs ih =>
    rcases h with ⟨x, hx, hxe⟩
    rcases List.mem_cons.mp hx with rfl | hx2
    · cases hg : x.get_value r with
      | error e => exact ⟨e, by simp [insertData, hg]⟩
      | ok v =>
        rw [hg] at hxe
        simp [isErr] at hxe
    · cases hg : c.get_value r with
      | error e => exact ⟨e, by simp [insertData, hg]⟩
      | ok v =>
        obtain ⟨e, he⟩ := ih ⟨x, hx2, hxe⟩
        exact ⟨e, by simp [insertData, hg, he]⟩

/-- Claim C10: `insert_log` extracts all column values before executing any
SQL, so if any column's extractor raises for an event, the whole call yields
that error without an INSERT: `emit` then leaves the table rows unchanged,
routes exactly that event to `handleError`, does not raise, and still closes
the connection. -/
theorem claim_C10_extract_before_execute (cols : List LogCol)
    (r : LogRecord)
    (h : ∃ c ∈ cols, isErr (c.get_value r) = true) :
    (∃ e, insertData cols r = .error e) ∧
    ∀ (db : String) (env : StorageEnv) (rows : List (List Value)),
      env.connectOk = true →
      emitFixed db cols env r rows = ⟨db, false, [r], true, rows⟩ := by
  obtain ⟨e, he⟩ := insertData_err_of_col cols r h
  refine ⟨⟨e, he⟩, ?_⟩
  intro db env rows hc
  rcases env with ⟨c1, c2, c3⟩
  obtain rfl : c1 = true := hc
  simp [emitFixed, he]

/-- A column whose extractor raises on every record, exercising the
extraction-failure path. -/
def failCol : LogCol :=
  { name := "Broken"
    get_value := fun _ => .error "extractor raised"
    type := "TEXT" }

/-- Witness for claim C10 with a concrete failing column: no row is inserted,
the hook receives the event once, nothing is raised, the connection closes. -/
theorem claim_C10_witness :
    (∃ c ∈ [failCol], isErr (c.get_value sampleRecord) = true) ∧
    (∃ e, insertData [failCol] sampleRecord = .error e) ∧
    emitFixed "w.db" [failCol] ⟨true, true, true⟩ sampleRecord [] =
      ⟨"w.db", false, [sampleRecord], true, []⟩ :=
  ⟨⟨failCol, List.mem_singleton_self _, rfl⟩,
    (claim_C10_extract_before_execute [failCol] sampleRecord
      ⟨failCol, List.mem_singleton_self _, rfl⟩).1,
    (claim_C10_extract_before_execute [failCol] sampleRecord
      ⟨failCol, List.mem_singleton_self _, rfl⟩).2 "w.db" ⟨true, true, true⟩
      [] rfl⟩
